import Mathlib

/-!
Verification of `openfecli/commands/atommapping.py`.

The module is a command-line adapter: it validates that exactly two molecules
were supplied, asks a mapper for its suggested mappings, requires exactly one,
and then either prints the correspondence table or renders it to a PNG file.
We embed the module shallowly: molecule and mapper objects become Lean
structures, `click` errors become an inductive error type returned through
`Except`, stdout and file writes become explicit fields of the result.
-/

namespace OpenFE

/-- A native (RDKit-level) molecule handle, as returned by `to_rdkit`. -/
structure RDMol where
  id : Nat
  deriving DecidableEq, Repr

/-- Modelled from the spec: molecule handles are "opaque, produced by an
external resolver" (the `Molecule` class lives outside this module). We keep
only an opaque identifier. -/
structure Molecule where
  id : Nat
  deriving DecidableEq, Repr

/-- Modelled from the spec: conversion of a molecule handle to its native
RDKit representation (`mol.to_rdkit()` in the source); the conversion itself
lives outside this module, so it simply repackages the opaque handle. -/
def Molecule.to_rdkit (m : Molecule) : RDMol :=
  ⟨m.id⟩

/-- A mapping result: "an object exposing a table of atom-index
correspondences between the two molecules", together with the two molecules
it maps between (`mapping.mol1`, `mapping.mol2`, `mapping.mol1_to_mol2`). -/
structure AtomMapping where
  mol1 : Molecule
  mol2 : Molecule
  mol1_to_mol2 : List (Nat × Nat)
  deriving DecidableEq, Repr

/-- A mapper instance: exposes `suggest_mappings(mol1, mol2)`, which yields a
finite sequence of candidate mappings (the source materialises it with
`list(...)`). -/
structure Mapper where
  suggest_mappings : Molecule → Molecule → List AtomMapping

/-- The two error classes the module raises: `click.UsageError` and
`click.BadParameter`, each carrying its message. -/
inductive CliError where
  | usageError (msg : String)
  | badParameter (msg : String)
  deriving DecidableEq, Repr

/-- `allow_two_molecules(ctx, param, value)`: click callback that requires
`\x2d\x2dmol` to be specified exactly twice, returning `value` unchanged
otherwise. -/
def allow_two_molecules (ctx : Unit) (param : Unit) (value : List String) :
    Except CliError (List String) :=
  if value.length ≠ 2 then
    Except.error (CliError.badParameter "Must specify \x2d\x2dmol exactly twice.")
  else
    Except.ok value

/-- Message of the usage error raised by `generate_mapping` when the mapper
suggests `n` mappings with `n ≠ 1`. -/
def mappingCountMsg (n : Nat) : String :=
  "Found " ++ toString n ++
    " mappings; this command requires a mapper to provide exactly 1 mapping"

/-- `generate_mapping(mapper, mol1, mol2)`: extracts a single mapping from a
mapper, erroring unless the mapper suggests exactly one. -/
def generate_mapping (mapper : Mapper) (mol1 mol2 : Molecule) :
    Except CliError AtomMapping :=
  let mappings := mapper.suggest_mappings mol1 mol2
  if h : mappings.length ≠ 1 then
    Except.error (CliError.usageError (mappingCountMsg mappings.length))
  else
    Except.ok (mappings.get ⟨0, by omega⟩)

/-- The rendering artists: `MolDraw2DCairo(600, 300, 300, 300)` from RDKit. -/
inductive Artist where
  | molDraw2DCairo (width height panelWidth panelHeight : Nat)
  deriving DecidableEq, Repr

/-- The `ext_to_artist` table built inside `atommapping_visualize_main`:
only the key `"png"` is registered. -/
def ext_to_artist : List (String × Artist) :=
  [("png", Artist.molDraw2DCairo 600 300 300 300)]

/-- Message of the `BadParameter` raised for an extension missing from
`ext_to_artist`; the supported formats are joined with `", "`, each quoted. -/
def unknownFormatMsg (ext : String) : String :=
  "Unknown file format: \x27" ++ ext ++
    "\x27. The following formats are supported: " ++
    String.intercalate ", " (ext_to_artist.map fun p => "\x27" ++ p.1 ++ "\x27")

/-- The type of the external drawing routine
`visualization.draw_mapping(mol1_to_mol2, rdmol1, rdmol2, d2d)`: it produces
image bytes from a correspondence table, two native molecule representations
and an artist. -/
def DrawFn : Type :=
  List (Nat × Nat) → RDMol → RDMol → Artist → List Nat

/-- Modelled from the spec: `openfe.utils.visualization.draw_mapping` is part
of the repository but not under this module; the spec describes it as "an
external drawing routine producing image bytes from a correspondence table and
two native molecule representations", the output being "a PNG image byte
stream". We model it as a non-empty byte list: the PNG signature byte `0x89`
followed by one byte per correspondence entry. -/
def draw_mapping (mol1_to_mol2 : List (Nat × Nat)) (rdmol1 rdmol2 : RDMol)
    (d2d : Artist) : List Nat :=
  137 :: mol1_to_mol2.map fun p => (p.1 + p.2) % 256

/-- `atommapping_visualize_main(mapper, mol1, mol2, file, ext)`: generates the
single mapping, looks the extension up in `ext_to_artist` (a `KeyError` is
turned into a `BadParameter`), draws the mapping and writes the bytes to the
file. The drawing routine is an import, so it is a parameter here. The second
component records every `file.write` performed, in order. -/
def atommapping_visualize_main (draw : DrawFn) (mapper : Mapper)
    (mol1 mol2 : Molecule) (file : Nat) (ext : String) :
    Except CliError Unit × List (Nat × List Nat) :=
  match generate_mapping mapper mol1 mol2 with
  | Except.error e => (Except.error e, [])
  | Except.ok mapping =>
    match ext_to_artist.lookup ext with
    | none => (Except.error (CliError.badParameter (unknownFormatMsg ext)), [])
    | some artist =>
      let contents := draw mapping.mol1_to_mol2 mapping.mol1.to_rdkit
        mapping.mol2.to_rdkit artist
      (Except.ok (), [(file, contents)])

/-- `atommapping_print_dict_main(mapper, mol1, mol2)`: generates the single
mapping and prints `mapping.mol1_to_mol2`; the printed table is the `ok`
payload. -/
def atommapping_print_dict_main (mapper : Mapper) (mol1 mol2 : Molecule) :
    Except CliError (List (Nat × Nat)) :=
  (generate_mapping mapper mol1 mol2).map fun mapping => mapping.mol1_to_mol2

/-- The two output paths the command can dispatch to. -/
inductive OutputPath where
  | imageRendering
  | textualPrinting
  deriving DecidableEq, Repr

/-- Observable result of one invocation of the command: which path was taken,
the final outcome, what was printed to stdout, and the file writes. -/
structure CommandResult where
  path : OutputPath
  outcome : Except CliError Unit
  printed : Option (List (Nat × Nat))
  writes : List (Nat × List Nat)

/-- The `atommapping` command body after argument resolution: `if file:` picks
the visualize path, otherwise the printing path. -/
def atommapping (draw : DrawFn) (mapper : Mapper) (mol1 mol2 : Molecule)
    (file : Option Nat) (ext : String) : CommandResult :=
  match file with
  | some f =>
    let r := atommapping_visualize_main draw mapper mol1 mol2 f ext
    ⟨OutputPath.imageRendering, r.1, none, r.2⟩
  | none =>
    match atommapping_print_dict_main mapper mol1 mol2 with
    | Except.ok d => ⟨OutputPath.textualPrinting, Except.ok (), some d, []⟩
    | Except.error e => ⟨OutputPath.textualPrinting, Except.error e, none, []⟩

/-- Concrete molecule used in witnesses. -/
def molA : Molecule := ⟨0⟩

/-- Concrete molecule used in witnesses. -/
def molB : Molecule := ⟨1⟩

/-- Concrete mapping between `molA` and `molB` used in witnesses. -/
def mappingAB : AtomMapping := ⟨molA, molB, [(0, 0), (1, 1)]⟩

/-- A mapper that suggests exactly one mapping, used in witnesses. -/
def mapperOne : Mapper := ⟨fun _ _ => [mappingAB]⟩

/-- A mapper that suggests no mapping at all, used in witnesses. -/
def mapperZero : Mapper := ⟨fun _ _ => []⟩

theorem gm_error_of_count (mapper : Mapper) (mol1 mol2 : Molecule)
    (h : (mapper.suggest_mappings mol1 mol2).length ≠ 1) :
    generate_mapping mapper mol1 mol2 =
      Except.error (CliError.usageError
        (mappingCountMsg (mapper.suggest_mappings mol1 mol2).length)) := by
  simp [generate_mapping, h]

theorem gm_ok_of_single (mapper : Mapper) (mol1 mol2 : Molecule)
    (m : AtomMapping) (h : mapper.suggest_mappings mol1 mol2 = [m]) :
    generate_mapping mapper mol1 mol2 = Except.ok m := by
  simp [generate_mapping, h]

/-- Claim C1: `generate_mapping` raises a usage error if and only if the
number of mappings the mapper suggests is not exactly 1, and the error message
mentions that count. -/
theorem generate_mapping_error_iff (mapper : Mapper) (mol1 mol2 : Molecule) :
    ((∃ e, generate_mapping mapper mol1 mol2 = Except.error e) ↔
      (mapper.suggest_mappings mol1 mol2).length ≠ 1) ∧
    ((mapper.suggest_mappings mol1 mol2).length ≠ 1 →
      generate_mapping mapper mol1 mol2 =
        Except.error (CliError.usageError
          (mappingCountMsg (mapper.suggest_mappings mol1 mol2).length)) ∧
      ∃ pre post,
        mappingCountMsg (mapper.suggest_mappings mol1 mol2).length =
          pre ++ toString (mapper.suggest_mappings mol1 mol2).length ++ post) := by
  constructor
  · by_cases h : (mapper.suggest_mappings mol1 mol2).length = 1
    · simp only [generate_mapping, h]
      simp [h]
    · rw [gm_error_of_count mapper mol1 mol2 h]
      simp [h]
  · intro h
    refine ⟨gm_error_of_count mapper mol1 mol2 h, "Found ",
      " mappings; this command requires a mapper to provide exactly 1 mapping",
      ?_⟩
    simp [mappingCountMsg, String.append_assoc]

/-- Witness for C1 at a mapper that suggests no mapping. -/
theorem generate_mapping_error_iff_witness :
    ((∃ e, generate_mapping mapperZero molA molB = Except.error e) ↔
      (mapperZero.suggest_mappings molA molB).length ≠ 1) ∧
    ((mapperZero.suggest_mappings molA molB).length ≠ 1 →
      generate_mapping mapperZero molA molB =
        Except.error (CliError.usageError
          (mappingCountMsg (mapperZero.suggest_mappings molA molB).length)) ∧
      ∃ pre post,
        mappingCountMsg (mapperZero.suggest_mappings molA molB).length =
          pre ++ toString (mapperZero.suggest_mappings molA molB).length ++ post) :=
  generate_mapping_error_iff mapperZero molA molB

/-- Claim C2: when the mapper suggests exactly one mapping, `generate_mapping`
returns that single suggested mapping. -/
theorem generate_mapping_single (mapper : Mapper) (mol1 mol2 : Molecule)
    (m : AtomMapping) (h : mapper.suggest_mappings mol1 mol2 = [m]) :
    generate_mapping mapper mol1 mol2 = Except.ok m :=
  gm_ok_of_single mapper mol1 mol2 m h

/-- Witness for C2 at a mapper that suggests exactly one mapping. -/
theorem generate_mapping_single_witness :
    mapperOne.suggest_mappings molA molB = [mappingAB] ∧
    generate_mapping mapperOne molA molB = Except.ok mappingAB :=
  ⟨rfl, generate_mapping_single mapperOne molA molB mappingAB rfl⟩

/-- Claim C3: the `\x2d\x2dmol` validation callback fails with a parameter
error exactly when the number of supplied values is not 2, and succeeds on
exactly two values. -/
theorem allow_two_molecules_length_check (ctx param : Unit)
    (value : List String) :
    (value.length ≠ 2 →
      allow_two_molecules ctx param value =
        Except.error
          (CliError.badParameter "Must specify \x2d\x2dmol exactly twice.")) ∧
    (value.length = 2 →
      ∃ v, allow_two_molecules ctx param value = Except.ok v) := by
  constructor
  · intro h
    simp [allow_two_molecules, h]
  · intro h
    exact ⟨value, by simp [allow_two_molecules, h]⟩

/-- Witness for C3: zero values fail, two values succeed. -/
theorem allow_two_molecules_length_check_witness :
    allow_two_molecules () () [] =
      Except.error
        (CliError.badParameter "Must specify \x2d\x2dmol exactly twice.") ∧
    ∃ v, allow_two_molecules () () ["a", "b"] = Except.ok v :=
  ⟨(allow_two_molecules_length_check () () []).1 (by decide),
   (allow_two_molecules_length_check () () ["a", "b"]).2 (by decide)⟩

/-- Claim C9: on a valid pair of values the callback is the identity, it
returns its input tuple unchanged. -/
theorem allow_two_molecules_id_on_valid (ctx param : Unit)
    (value : List String) (h : value.length = 2) :
    allow_two_molecules ctx param value = Except.ok value := by
  simp [allow_two_molecules, h]

/-- Witness for C9 at a concrete two-element tuple. -/
theorem allow_two_molecules_id_on_valid_witness :
    allow_two_molecules () () ["m1.sdf", "m2.sdf"] =
      Except.ok ["m1.sdf", "m2.sdf"] :=
  allow_two_molecules_id_on_valid () () ["m1.sdf", "m2.sdf"] (by decide)

/-- Claim C4: an extension without a registered renderer makes the visualize
path fail with a parameter error whose message lists the supported formats,
namely `"png"` (the single mapping premise is needed to reach the extension
check, see C8 for the precedence). -/
theorem visualize_unknown_format (draw : DrawFn) (mapper : Mapper)
    (mol1 mol2 : Molecule) (file : Nat) (ext : String) (m : AtomMapping)
    (hone : mapper.suggest_mappings mol1 mol2 = [m]) (hext : ext ≠ "png") :
    atommapping_visualize_main draw mapper mol1 mol2 file ext =
      (Except.error (CliError.badParameter (unknownFormatMsg ext)), []) ∧
    ∃ pre, unknownFormatMsg ext = pre ++ "\x27png\x27" := by
  have hgm := gm_ok_of_single mapper mol1 mol2 m hone
  have hbeq : (ext == "png") = false := beq_eq_false_iff_ne.mpr hext
  constructor
  · unfold atommapping_visualize_main
    rw [hgm]
    simp [ext_to_artist, List.lookup, hbeq]
  · refine ⟨"Unknown file format: \x27" ++ ext ++
      "\x27. The following formats are supported: ", ?_⟩
    simp [unknownFormatMsg, ext_to_artist, String.append_assoc]
    rfl

/-- Witness for C4 at the extension `"bmp"`. -/
theorem visualize_unknown_format_witness :
    atommapping_visualize_main draw_mapping mapperOne molA molB 0 "bmp" =
      (Except.error (CliError.badParameter (unknownFormatMsg "bmp")), []) ∧
    ∃ pre, unknownFormatMsg "bmp" = pre ++ "\x27png\x27" :=
  visualize_unknown_format draw_mapping mapperOne molA molB 0 "bmp" mappingAB
    rfl (by decide)

/-- Claim C5: with exactly one suggested mapping and no output file requested,
the command prints that mapping's mol1-to-mol2 correspondence table to
stdout. -/
theorem atommapping_prints_dict (draw : DrawFn) (mapper : Mapper)
    (mol1 mol2 : Molecule) (ext : String) (m : AtomMapping)
    (h : mapper.suggest_mappings mol1 mol2 = [m]) :
    (atommapping draw mapper mol1 mol2 none ext).printed =
      some m.mol1_to_mol2 := by
  have hgm := gm_ok_of_single mapper mol1 mol2 m h
  simp [atommapping, atommapping_print_dict_main, hgm, Except.map]

/-- Witness for C5 at a mapper with exactly one mapping. -/
theorem atommapping_prints_dict_witness :
    (atommapping draw_mapping mapperOne molA molB none "png").printed =
      some mappingAB.mol1_to_mol2 :=
  atommapping_prints_dict draw_mapping mapperOne molA molB "png" mappingAB rfl

/-- Claim C6: the output path is determined solely by whether an output file
was requested: a requested file selects the image-rendering path, no file
selects the textual printing path. -/
theorem atommapping_dispatch_by_file (draw : DrawFn) (mapper : Mapper)
    (mol1 mol2 : Molecule) (file : Option Nat) (ext : String) :
    (atommapping draw mapper mol1 mol2 file ext).path =
      if file.isSome then OutputPath.imageRendering
      else OutputPath.textualPrinting := by
  cases file with
  | some f => simp [atommapping]
  | none =>
    cases h : atommapping_print_dict_main mapper mol1 mol2 <;>
      simp [atommapping, h]

/-- Claim C7: requesting `"png"` output when the mapper produces exactly one
mapping writes the non-empty image bytes produced by the drawing routine to
the target file, and nothing else. -/
theorem visualize_png_writes_bytes (mapper : Mapper) (mol1 mol2 : Molecule)
    (file : Nat) (m : AtomMapping)
    (h : mapper.suggest_mappings mol1 mol2 = [m]) :
    atommapping_visualize_main draw_mapping mapper mol1 mol2 file "png" =
      (Except.ok (),
        [(file,
          draw_mapping m.mol1_to_mol2 m.mol1.to_rdkit m.mol2.to_rdkit
            (Artist.molDraw2DCairo 600 300 300 300))]) ∧
    draw_mapping m.mol1_to_mol2 m.mol1.to_rdkit m.mol2.to_rdkit
      (Artist.molDraw2DCairo 600 300 300 300) ≠ [] := by
  have hgm := gm_ok_of_single mapper mol1 mol2 m h
  constructor
  · unfold atommapping_visualize_main
    rw [hgm]
    rfl
  · simp [draw_mapping]

/-- Witness for C7 at a mapper with exactly one mapping. -/
theorem visualize_png_writes_bytes_witness :
    atommapping_visualize_main draw_mapping mapperOne molA molB 3 "png" =
      (Except.ok (),
        [(3,
          draw_mapping mappingAB.mol1_to_mol2 mappingAB.mol1.to_rdkit
            mappingAB.mol2.to_rdkit (Artist.molDraw2DCairo 600 300 300 300))]) ∧
    draw_mapping mappingAB.mol1_to_mol2 mappingAB.mol1.to_rdkit
      mappingAB.mol2.to_rdkit (Artist.molDraw2DCairo 600 300 300 300) ≠ [] :=
  visualize_png_writes_bytes mapperOne molA molB 3 mappingAB rfl

/-- Claim C8: whenever the visualize path errors nothing is written to the
output file, and a mapping count other than 1 yields the usage error no matter
the extension, so the mapping-count check takes precedence over the extension
check. -/
theorem visualize_error_no_write (draw : DrawFn) (mapper : Mapper)
    (mol1 mol2 : Molecule) (file : Nat) (ext : String) :
    (∀ e,
      (atommapping_visualize_main draw mapper mol1 mol2 file ext).1 =
          Except.error e →
        (atommapping_visualize_main draw mapper mol1 mol2 file ext).2 = []) ∧
    ((mapper.suggest_mappings mol1 mol2).length ≠ 1 →
      atommapping_visualize_main draw mapper mol1 mol2 file ext =
        (Except.error (CliError.usageError
          (mappingCountMsg (mapper.suggest_mappings mol1 mol2).length)), [])) := by
  constructor
  · intro e he
    unfold atommapping_visualize_main at he ⊢
    cases hgm : generate_mapping mapper mol1 mol2 with
    | error e0 => simp [hgm]
    | ok mapping =>
      cases hl : ext_to_artist.lookup ext with
      | none => simp [hgm, hl]
      | some artist => simp [hgm, hl] at he
  · intro h
    unfold atommapping_visualize_main
    rw [gm_error_of_count mapper mol1 mol2 h]

/-- Witness for C8: a mapper with zero mappings and the unsupported extension
`"bmp"` give the usage error and no write. -/
theorem visualize_error_no_write_witness :
    (atommapping_visualize_main draw_mapping mapperZero molA molB 0 "bmp").2 =
      [] ∧
    atommapping_visualize_main draw_mapping mapperZero molA molB 0 "bmp" =
      (Except.error (CliError.usageError (mappingCountMsg 0)), []) :=
  ⟨(visualize_error_no_write draw_mapping mapperZero molA molB 0 "bmp").1
      (CliError.usageError (mappingCountMsg 0)) rfl,
   (visualize_error_no_write draw_mapping mapperZero molA molB 0 "bmp").2
      (by decide)⟩

/-- Claim C10: the extension lookup is case-sensitive: `"PNG"` is not found in
the renderer table, so the visualize path raises the unsupported-format
parameter error instead of rendering. -/
theorem visualize_case_sensitive (draw : DrawFn) (mapper : Mapper)
    (mol1 mol2 : Molecule) (file : Nat) (m : AtomMapping)
    (h : mapper.suggest_mappings mol1 mol2 = [m]) :
    atommapping_visualize_main draw mapper mol1 mol2 file "PNG" =
      (Except.error (CliError.badParameter (unknownFormatMsg "PNG")), []) := by
  have hgm := gm_ok_of_single mapper mol1 mol2 m h
  unfold atommapping_visualize_main
  rw [hgm]
  rfl

/-- Witness for C10 at a mapper with exactly one mapping. -/
theorem visualize_case_sensitive_witness :
    atommapping_visualize_main draw_mapping mapperOne molA molB 0 "PNG" =
      (Except.error (CliError.badParameter (unknownFormatMsg "PNG")), []) :=
  visualize_case_sensitive draw_mapping mapperOne molA molB 0 mappingAB rfl

end OpenFE
